import Mathlib

/-!
# Verification of the cardiometrics HRV pipeline

Shallow embedding, over `ℚ`, of the metric calculators and the ECG fiducial
detector of the cardiometrics deployment repository, together with theorems
settling the specification claims.

Conventions:
* JS numbers are modelled as rationals; `Math.abs` is `|·|`, `Math.floor` is
  `Int.floor`, `Math.ceil` is `Int.ceil`, `Math.round x` is `⌊x + 1/2⌋`.
* Arrays are lists; `arr[i]` out-of-range reads never occur on the paths the
  theorems traverse, and are modelled by `List.getD · · 0`.
* Values that the source obtains from `Math.sqrt` (SDNN, RMSSD) are irrational
  in general and enter the index calculators only through total normalisation
  maps; they are treated as oracle parameters universally quantified in the
  theorems, so every theorem covers the actual values.
-/

namespace Cardio

/-! ## `src/services/Metric.js` -/

/-- `Metric.calculateMean`: `mean(samples)`, `0` for an empty list. -/
def calculateMean (samples : List ℚ) : ℚ :=
  if samples.length = 0 then 0 else samples.sum / samples.length

/-- `Metric.addSample`: push the sample, dropping the oldest element once the
buffer exceeds `maxSamples`. -/
def addSample (maxSamples : ℕ) (data : List ℚ) (sample : ℚ) : List ℚ :=
  let d := data ++ [sample]
  if maxSamples < d.length then d.tail else d

/-- `Metric.recentSamples`: the last `min pulsesNumber data.length` samples. -/
def recentSamples (pulsesNumber : ℕ) (data : List ℚ) : List ℚ :=
  data.drop (data.length - min pulsesNumber data.length)

/-! ## `src/services/RRInt.js` -/

/-- `RRInt.validateRrInterval`: `rri >= 300 && rri <= 2000`. -/
def validateRrInterval (rri : ℚ) : Prop :=
  300 ≤ rri ∧ rri ≤ 2000

instance (rri : ℚ) : Decidable (validateRrInterval rri) := by
  unfold validateRrInterval; infer_instance

/-- `RRInt.handleRrInterval` for a calculator whose `calculate()` is a pure
function of the stored data (the base-class behaviour): a valid interval is
added to the window and one value is published; an invalid one is dropped. -/
def RRInt.handleRrInterval (maxSamples : ℕ) (calcFn : List ℚ → ℚ)
    (data : List ℚ) (rri : ℚ) : List ℚ × List ℚ :=
  if validateRrInterval rri then
    let d := addSample maxSamples data rri
    (d, [calcFn d])
  else
    (data, [])

/-! ## `src/services/MxDMn.js` (class `MxDMn`) -/

/-- `MxDMn.calculate` from `src/services/MxDMn.js`: mean absolute deviation
of the recent R-R intervals about their mean. -/
def MxDMn.calculate (recentRrs : List ℚ) : ℚ :=
  if recentRrs.length < 2 then 0
  else
    let mean := calculateMean recentRrs
    let deviations := recentRrs.map (fun rri => |rri - mean|)
    deviations.sum / deviations.length

/-- `Math.max(...samples)` for a non-empty list. -/
def jsMaxList (l : List ℚ) : ℚ :=
  match l with
  | [] => 0
  | h :: t => t.foldl max h

/-- `Math.min(...samples)` for a non-empty list. -/
def jsMinList (l : List ℚ) : ℚ :=
  match l with
  | [] => 0
  | h :: t => t.foldl min h

/-- `MxDMn.calculateMxDMn` from the `unnamed/part_012` revision of
`MxDMn.js`: `max(samples) - min(samples)` once at least two samples exist. -/
def calculateMxDMn (samples : List ℚ) : ℚ :=
  if samples.length < 2 then 0
  else jsMaxList samples - jsMinList samples

/-! ## `src/services/MxDMn.js` (class `AMo50`) -/

/-- `AMo50.calculate`: percentage of recent R-R intervals whose distance from
the window mean exceeds 50 ms (`Math.abs(rri - meanRR) > 50`). -/
def AMo50.calculate (recentRrs : List ℚ) : ℚ :=
  if recentRrs.length = 0 then 0
  else
    let meanRR := calculateMean recentRrs
    let count := (recentRrs.filter (fun rri => 50 < |rri - meanRR|)).length
    ((count : ℚ) / recentRrs.length) * 100

/-- Modelled from the spec: "AMo50 — percentage of intervals within ±50 ms of
the mean" (the definition the claim asserts, used only for comparison). -/
def specAMo50Within (w : List ℚ) : ℚ :=
  if w.length = 0 then 0
  else
    let mean := calculateMean w
    (((w.filter (fun rri => |rri - mean| ≤ 50)).length : ℚ) / w.length) * 100

/-! ## `src/services/FrequencyDomain.js` (the variant the services import) -/

/-- `FrequencyDomain.calculateBandPower` of `src/services/FrequencyDomain.js`:
variance-based estimate distributed over the bands by fixed proportions.
(The fourth `normFactor` argument that `LFPower`/`HFPower` pass is not part of
this signature and is silently ignored by JavaScript.) -/
def calculateBandPower (rrSeries : List ℚ) (minFreq maxFreq : ℚ) : ℚ :=
  if rrSeries.length < 5 then 0
  else
    let rr := rrSeries
    let meanRR := rr.sum / rr.length
    let variance := (rr.map (fun val => (val - meanRR) * (val - meanRR))).sum / rr.length
    let scaleFactorByCount : ℚ :=
      if rr.length < 30 then 4/5 + (rr.length : ℚ) / 150 else 1
    let totalPower := variance * scaleFactorByCount
    if 3/1000 ≤ minFreq ∧ minFreq < 1/25 ∧ maxFreq ≤ 1/25 then
      totalPower * (1/4)
    else if 1/25 ≤ minFreq ∧ minFreq < 3/20 ∧ maxFreq ≤ 3/20 then
      totalPower * (7/20)
    else if 3/20 ≤ minFreq ∧ minFreq < 2/5 ∧ maxFreq ≤ 2/5 then
      totalPower * (1/4)
    else if minFreq ≤ 3/1000 ∧ 2/5 ≤ maxFreq then
      totalPower
    else
      let totalBandwidth : ℚ := 2/5 - 3/1000
      let requestedBandwidth := min maxFreq (2/5) - max minFreq (3/1000)
      totalPower * (requestedBandwidth / totalBandwidth)

/-- `VLFPower.calculate`: band power on 0.003–0.04 Hz. -/
def VLFPower.calculate (recentRrs : List ℚ) : ℚ :=
  calculateBandPower recentRrs (3/1000) (1/25)

/-- `LFPower.calculate`: band power on 0.04–0.15 Hz (the `4.5` normalisation
argument is ignored by the three-parameter `calculateBandPower`). -/
def LFPower.calculate (recentRrs : List ℚ) : ℚ :=
  calculateBandPower recentRrs (1/25) (3/20)

/-- `HFPower.calculate`: band power on 0.15–0.4 Hz (the `9` normalisation
argument is ignored by the three-parameter `calculateBandPower`). -/
def HFPower.calculate (recentRrs : List ℚ) : ℚ :=
  calculateBandPower recentRrs (3/20) (2/5)

/-- `TotalPower.calculate`: the sum of the three band computations on the
calculator's own recent R-R intervals. -/
def TotalPower.calculate (recentRrs : List ℚ) : ℚ :=
  calculateBandPower recentRrs (3/1000) (1/25)
    + calculateBandPower recentRrs (1/25) (3/20)
    + calculateBandPower recentRrs (3/20) (2/5)

/-! ## `src/services/StressIndex.js` -/

namespace StressIndex

/-- `StressIndex.normalizeLFHF`. -/
def normalizeLFHF (value : ℚ) : ℚ :=
  if value ≤ 1/2 then 10
  else if value ≤ 1 then 20 + (value - 1/2) * 20
  else if value ≤ 2 then 30 + (value - 1) * 20
  else if value ≤ 3 then 50 + (value - 2) * 20
  else min (90 + (value - 3) * 3) 100

/-- `StressIndex.normalizeSDNN`. -/
def normalizeSDNN (value : ℚ) : ℚ :=
  if value ≤ 20 then 100
  else if value ≤ 50 then 80 - ((value - 20) / 30) * 30
  else if value ≤ 100 then 50 - ((value - 50) / 50) * 30
  else max (20 - ((value - 100) / 50) * 10) 0

/-- `StressIndex.normalizeRMSSD`. -/
def normalizeRMSSD (value : ℚ) : ℚ :=
  if value ≤ 10 then 100
  else if value ≤ 30 then 80 - ((value - 10) / 20) * 30
  else if value ≤ 50 then 50 - ((value - 30) / 20) * 20
  else max (30 - ((value - 50) / 10) * 10) 0

/-- `StressIndex.normalizeTotalPower`. -/
def normalizeTotalPower (value : ℚ) : ℚ :=
  if value ≤ 500 then 90
  else if value ≤ 1000 then 70 - ((value - 500) / 500) * 20
  else if value ≤ 2000 then 50 - ((value - 1000) / 1000) * 20
  else max (30 - ((value - 2000) / 1000) * 15) 0

/-- `StressIndex.calculateSNS`. -/
def calculateSNS (normalizedLFHF normalizedSDNN normalizedRMSSD : ℚ) : ℚ :=
  normalizedLFHF * (1/2) + normalizedSDNN * (1/4) + normalizedRMSSD * (1/4)

/-- `StressIndex.calculatePSNS`. -/
def calculatePSNS (normalizedLFHF normalizedSDNN normalizedRMSSD
    normalizedTotalPower : ℚ) : ℚ :=
  (100 - normalizedLFHF) * (2/5) + (100 - normalizedSDNN) * (1/5) +
    (100 - normalizedRMSSD) * (1/5) + (100 - normalizedTotalPower) * (1/5)

/-- `StressIndex.calculateFinalStressIndex`: weighted SNS/PSNS mix, clamped
into `[0, 100]`. -/
def calculateFinalStressIndex (sns psns : ℚ) : ℚ :=
  let balance := |sns - psns| / 25
  let baseStress := sns
  min 100 (max 0 (baseStress * (7/10) + (100 - psns) * (1/5) + balance * 10))

/-- `updateMetricHistory` with the `historyMaxSize = 20` bound. -/
def pushHist (h : List ℚ) (v : ℚ) : List ℚ :=
  let d := h ++ [v]
  if 20 < d.length then d.tail else d

/-- `StressIndex.smoothStressIndex`: adaptive exponential smoothing against
the last entry of the stress history; the raw value passes through when the
history is empty. -/
def smoothStressIndex (stressHist : List ℚ) (rawStressIndex : ℚ) : ℚ :=
  match stressHist.getLast? with
  | none => rawStressIndex
  | some lastStressIndex =>
    let difference := |rawStressIndex - lastStressIndex|
    let currentWeight := min (7/10 + difference / 100) (9/10)
    let historyWeight := 1 - currentWeight
    rawStressIndex * currentWeight + lastStressIndex * historyWeight

/-- `StressIndex.getLastStressValue`. -/
def getLastStressValue (stressHist lfhfHist : List ℚ) : ℚ :=
  match stressHist.getLast? with
  | some v => v
  | none =>
    match lfhfHist.getLast? with
    | some l => normalizeLFHF l
    | none => 0

/-- The mutable fields of a `StressIndex` instance: the R-R data buffer
inherited from `Metric`, the five metric histories, and `this.value`. -/
structure State where
  data : List ℚ
  stressHist : List ℚ
  lfhfHist : List ℚ
  sdnnHist : List ℚ
  rmssdHist : List ℚ
  totalPowerHist : List ℚ
  value : ℚ
deriving DecidableEq, Repr

/-- The freshly constructed `StressIndex` instance. -/
def State.initial : State := ⟨[], [], [], [], [], [], 0⟩

/-- `StressIndex.calculate`.  `sdnn` and `rmssd` are the oracle values of
`calculateStdDev` / `calculateRMSSD` on the current window (they involve
`Math.sqrt`).  The private `totalPowerCalculator` never receives R-R
intervals (`StressIndex.handleRrInterval` does not forward them), so its
window is empty and its `calculate()` contributes `TotalPower.calculate []`.
Returns the published value and the updated instance state. -/
def calculate (pulses : ℕ) (sdnn rmssd : ℚ) (s : State) : ℚ × State :=
  let recentRrs := recentSamples pulses s.data
  if recentRrs.length < 5 then
    (getLastStressValue s.stressHist s.lfhfHist, s)
  else
    let lfPower := calculateBandPower recentRrs (1/25) (3/20)
    let hfPower := calculateBandPower recentRrs (3/20) (2/5)
    let totalPower := TotalPower.calculate []
    let lfhfRatio := if lfPower ≠ 0 ∧ hfPower ≠ 0 then lfPower / hfPower else 1
    let s1 : State := { s with
      lfhfHist := pushHist s.lfhfHist lfhfRatio
      sdnnHist := pushHist s.sdnnHist sdnn
      rmssdHist := pushHist s.rmssdHist rmssd
      totalPowerHist := pushHist s.totalPowerHist totalPower }
    let normalizedLFHF := normalizeLFHF lfhfRatio
    let normalizedSDNN := normalizeSDNN sdnn
    let normalizedRMSSD := normalizeRMSSD rmssd
    let normalizedTotalPower := normalizeTotalPower totalPower
    let sns := calculateSNS normalizedLFHF normalizedSDNN normalizedRMSSD
    let psns := calculatePSNS normalizedLFHF normalizedSDNN normalizedRMSSD
      normalizedTotalPower
    let rawStressIndex := calculateFinalStressIndex sns psns
    let smoothedStress := smoothStressIndex s1.stressHist rawStressIndex
    (smoothedStress, { s1 with stressHist := pushHist s1.stressHist smoothedStress })

/-- `StressIndex.handleRrInterval`: the inherited `RRInt` handler stores a
valid interval and publishes one `calculate()` result; afterwards the
subclass body publishes a second `calculate()` result whenever the window
holds at least 5 intervals — even when the incoming interval was rejected.
Returns the updated state and the list of published values. -/
def handleRrInterval (maxSamples pulses : ℕ) (sdnn rmssd : ℚ)
    (s : State) (rri : ℚ) : State × List ℚ :=
  let base :=
    if validateRrInterval rri then
      let s1 : State := { s with data := addSample maxSamples s.data rri }
      let c1 := calculate pulses sdnn rmssd s1
      (c1.2, [c1.1])
    else
      (s, ([] : List ℚ))
  if 5 ≤ (recentSamples pulses base.1.data).length then
    let c2 := calculate pulses sdnn rmssd base.1
    ({ c2.2 with value := c2.1 }, base.2 ++ [c2.1])
  else
    (base.1, base.2)

/-- A session: fold `handleRrInterval` over a list of incoming intervals,
each paired with its `(sdnn, rmssd)` oracle values, collecting every
published value. -/
def run (maxSamples pulses : ℕ) :
    State → List (ℚ × ℚ × ℚ) → State × List ℚ
  | s, [] => (s, [])
  | s, (rri, sdnn, rmssd) :: rest =>
    let step := handleRrInterval maxSamples pulses sdnn rmssd s rri
    let next := run maxSamples pulses step.1 rest
    (next.1, step.2 ++ next.2)

end StressIndex

/-- `Math.round`: round half toward positive infinity. -/
def jsRound (x : ℚ) : ℚ := (⌊x + 1/2⌋ : ℤ)

/-! ## `src/services/EnergyIndex.js` -/

namespace EnergyIndex

/-- `EnergyIndex.normalizeLFHF` (textually identical to the StressIndex one). -/
def normalizeLFHF (value : ℚ) : ℚ :=
  if value ≤ 1/2 then 10
  else if value ≤ 1 then 20 + (value - 1/2) * 20
  else if value ≤ 2 then 30 + (value - 1) * 20
  else if value ≤ 3 then 50 + (value - 2) * 20
  else min (90 + (value - 3) * 3) 100

/-- `EnergyIndex.normalizeSDNN` (steeper than the StressIndex curve). -/
def normalizeSDNN (value : ℚ) : ℚ :=
  if value ≤ 20 then 100
  else if value ≤ 50 then 80 - ((value - 20) / 30) * 40
  else if value ≤ 100 then 40 - ((value - 50) / 50) * 30
  else max (10 - ((value - 100) / 50) * 10) 0

/-- `EnergyIndex.normalizeRMSSD`. -/
def normalizeRMSSD (value : ℚ) : ℚ :=
  if value ≤ 10 then 100
  else if value ≤ 30 then 80 - ((value - 10) / 20) * 40
  else if value ≤ 50 then 40 - ((value - 30) / 20) * 25
  else max (15 - ((value - 50) / 10) * 10) 0

/-- `EnergyIndex.normalizeTotalPower`. -/
def normalizeTotalPower (value : ℚ) : ℚ :=
  if value ≤ 500 then 90
  else if value ≤ 1000 then 70 - ((value - 500) / 500) * 20
  else if value ≤ 2000 then 50 - ((value - 1000) / 1000) * 20
  else max (30 - ((value - 2000) / 1000) * 15) 0

/-- `EnergyIndex.calculatePSNS` (same formula as StressIndex). -/
def calculatePSNS (normalizedLFHF normalizedSDNN normalizedRMSSD
    normalizedTotalPower : ℚ) : ℚ :=
  (100 - normalizedLFHF) * (2/5) + (100 - normalizedSDNN) * (1/5) +
    (100 - normalizedRMSSD) * (1/5) + (100 - normalizedTotalPower) * (1/5)

/-- `EnergyIndex.smoothEnergy`: same adaptive weights as
`smoothStressIndex`. -/
def smoothEnergy (energyHist : List ℚ) (rawValue : ℚ) : ℚ :=
  match energyHist.getLast? with
  | none => rawValue
  | some previous =>
    let diff := |rawValue - previous|
    let currentWeight := min (7/10 + diff / 100) (9/10)
    let historyWeight := 1 - currentWeight
    rawValue * currentWeight + previous * historyWeight

/-- The mutable fields of an `EnergyIndex` instance. -/
structure State where
  data : List ℚ
  energyHist : List ℚ
  lfhfHist : List ℚ
  sdnnHist : List ℚ
  rmssdHist : List ℚ
  totalPowerHist : List ℚ
  psnsHist : List ℚ
  value : ℚ
deriving DecidableEq, Repr

/-- The freshly constructed `EnergyIndex` instance. -/
def State.initial : State := ⟨[], [], [], [], [], [], [], 0⟩

/-- `EnergyIndex.calculate`.  `sdnn`/`rmssd` are the `Math.sqrt` oracle
values.  The child calculators receive every interval through
`handleRrInterval` forwarding, so the private `TotalPower` window equals the
parent window and `totalPowerCalculator.calculate()` is
`TotalPower.calculate` on the same recent intervals. -/
def calculate (pulses : ℕ) (sdnn rmssd : ℚ) (s : State) : ℚ × State :=
  let recentRrs := recentSamples pulses s.data
  if recentRrs.length < 5 then
    ((s.energyHist.getLast?).getD 0, s)
  else
    let lfPower := calculateBandPower recentRrs (1/25) (3/20)
    let hfPower := calculateBandPower recentRrs (3/20) (2/5)
    let totalPower := TotalPower.calculate recentRrs
    let lfhfRatio := if lfPower ≠ 0 ∧ 0 < hfPower then lfPower / hfPower else 1
    let s1 : State := { s with
      lfhfHist := StressIndex.pushHist s.lfhfHist lfhfRatio
      sdnnHist := StressIndex.pushHist s.sdnnHist sdnn
      rmssdHist := StressIndex.pushHist s.rmssdHist rmssd
      totalPowerHist := StressIndex.pushHist s.totalPowerHist totalPower }
    let normalizedLFHF := normalizeLFHF lfhfRatio
    let normalizedSDNN := normalizeSDNN sdnn
    let normalizedRMSSD := normalizeRMSSD rmssd
    let normalizedTotalPower := normalizeTotalPower totalPower
    let psns := calculatePSNS normalizedLFHF normalizedSDNN normalizedRMSSD
      normalizedTotalPower
    let s2 : State := { s1 with psnsHist := StressIndex.pushHist s1.psnsHist psns }
    let rawEnergy := psns * (1/2) + (100 - normalizedSDNN) * (1/5) +
      (100 - normalizedRMSSD) * (1/5) + (100 - normalizedTotalPower) * (1/10)
    let smoothedEnergy := smoothEnergy s2.energyHist rawEnergy
    let s3 : State := { s2 with energyHist := StressIndex.pushHist s2.energyHist smoothedEnergy }
    (jsRound (min 100 (max 0 smoothedEnergy)), s3)

/-- `EnergyIndex.handleRrInterval`: inherited storage + base publication,
then the unconditional `length >= 5` subclass publication. -/
def handleRrInterval (maxSamples pulses : ℕ) (sdnn rmssd : ℚ)
    (s : State) (rri : ℚ) : State × List ℚ :=
  let base :=
    if validateRrInterval rri then
      let s1 : State := { s with data := addSample maxSamples s.data rri }
      let c1 := calculate pulses sdnn rmssd s1
      (c1.2, [c1.1])
    else
      (s, ([] : List ℚ))
  if 5 ≤ (recentSamples pulses base.1.data).length then
    let c2 := calculate pulses sdnn rmssd base.1
    ({ c2.2 with value := c2.1 }, base.2 ++ [c2.1])
  else
    (base.1, base.2)

/-- A session of incoming intervals with their oracle values. -/
def run (maxSamples pulses : ℕ) :
    State → List (ℚ × ℚ × ℚ) → State × List ℚ
  | s, [] => (s, [])
  | s, (rri, sdnn, rmssd) :: rest =>
    let step := handleRrInterval maxSamples pulses sdnn rmssd s rri
    let next := run maxSamples pulses step.1 rest
    (next.1, step.2 ++ next.2)

end EnergyIndex

/-! ## `src/services/HealthIndex.js` -/

namespace HealthIndex

/-- `HealthIndex.calculateImmunity`. -/
def calculateImmunity (sdnn rmssd energyValue : ℚ) : ℚ :=
  min 100 ((sdnn / 60) * 100) * (35/100) +
    min 100 ((rmssd / 40) * 100) * (35/100) + energyValue * (3/10)

/-- `HealthIndex.calculateRecovery`. -/
def calculateRecovery (stressValue energyValue : ℚ) : ℚ :=
  max 0 (100 - stressValue) * (3/5) + energyValue * (2/5)

/-- `HealthIndex.calculateBalance`. -/
def calculateBalance (stressValue energyValue : ℚ) : ℚ :=
  max 0 (100 - stressValue) * (1/2) + energyValue * (1/2) +
    (if stressValue < 40 ∧ 60 < energyValue then 10 else 0)

/-- `HealthIndex.calculateOverallHealth`. -/
def calculateOverallHealth (immunity recovery balance stressValue
    energyValue : ℚ) : ℚ :=
  immunity * (3/10) + recovery * (3/10) + balance * (1/5) +
    (100 - stressValue) * (1/10) + energyValue * (1/10)

/-- `HealthIndex.smoothHealth`: adaptive weight
`min(0.5 + diff/200, 0.8)`. -/
def smoothHealth (healthHist : List ℚ) (rawValue : ℚ) : ℚ :=
  match healthHist.getLast? with
  | none => rawValue
  | some previous =>
    let diff := |rawValue - previous|
    let currentWeight := min (1/2 + diff / 200) (4/5)
    let historyWeight := 1 - currentWeight
    rawValue * currentWeight + previous * historyWeight

/-- The mutable fields of a `HealthIndex` instance (child calculator states
are summarised by the oracle inputs of `calculate`). -/
structure State where
  data : List ℚ
  healthHist : List ℚ
  stressLevelHist : List ℚ
  energyLevelHist : List ℚ
  immunityHist : List ℚ
  recoveryHist : List ℚ
  balanceHist : List ℚ
  value : ℚ
deriving DecidableEq, Repr

/-- The freshly constructed `HealthIndex` instance (`this.value = 100`). -/
def State.initial : State := ⟨[], [], [], [], [], [], [], 100⟩

/-- `HealthIndex.calculate`.  `sdnn`/`rmssd` are the `Math.sqrt` oracle
values; `stressValue`/`energyValue` model `this.stressCalculator.value || 0`
and `this.energyCalculator.value || 0`, the child index instances' current
values, which enter this method only through these reads.  On a window of
fewer than 5 intervals the JS `return this.getLastHealthValue() || 100`
yields `100` when the history is empty or its last entry is `0`. -/
def calculate (pulses : ℕ) (sdnn rmssd stressValue energyValue : ℚ)
    (s : State) : ℚ × State :=
  let recentRrs := recentSamples pulses s.data
  if recentRrs.length < 5 then
    (match s.healthHist.getLast? with
     | none => 100
     | some v => if v = 0 then 100 else v, s)
  else
    let s1 : State := { s with
      stressLevelHist := StressIndex.pushHist s.stressLevelHist stressValue
      energyLevelHist := StressIndex.pushHist s.energyLevelHist energyValue }
    let immunityScore := calculateImmunity sdnn rmssd energyValue
    let s2 : State := { s1 with immunityHist := StressIndex.pushHist s1.immunityHist immunityScore }
    let recoveryScore := calculateRecovery stressValue energyValue
    let s3 : State := { s2 with recoveryHist := StressIndex.pushHist s2.recoveryHist recoveryScore }
    let balanceScore := calculateBalance stressValue energyValue
    let s4 : State := { s3 with balanceHist := StressIndex.pushHist s3.balanceHist balanceScore }
    let rawHealth := calculateOverallHealth immunityScore recoveryScore
      balanceScore stressValue energyValue
    let smoothedHealth := smoothHealth s4.healthHist rawHealth
    let s5 : State := { s4 with healthHist := StressIndex.pushHist s4.healthHist smoothedHealth }
    (jsRound (min 100 (max 0 smoothedHealth)), s5)

/-- `HealthIndex.handleRrInterval`: inherited storage and base publication,
then the unconditional `length >= 5` subclass publication. -/
def handleRrInterval (maxSamples pulses : ℕ)
    (sdnn rmssd stressValue energyValue : ℚ)
    (s : State) (rri : ℚ) : State × List ℚ :=
  let base :=
    if validateRrInterval rri then
      let s1 : State := { s with data := addSample maxSamples s.data rri }
      let c1 := calculate pulses sdnn rmssd stressValue energyValue s1
      (c1.2, [c1.1])
    else
      (s, ([] : List ℚ))
  if 5 ≤ (recentSamples pulses base.1.data).length then
    let c2 := calculate pulses sdnn rmssd stressValue energyValue base.1
    ({ c2.2 with value := c2.1 }, base.2 ++ [c2.1])
  else
    (base.1, base.2)

/-- A session of incoming intervals with their oracle values
`(rri, sdnn, rmssd, stressValue, energyValue)`. -/
def run (maxSamples pulses : ℕ) :
    State → List (ℚ × ℚ × ℚ × ℚ × ℚ) → State × List ℚ
  | s, [] => (s, [])
  | s, (rri, sdnn, rmssd, sv, ev) :: rest =>
    let step := handleRrInterval maxSamples pulses sdnn rmssd sv ev s rri
    let next := run maxSamples pulses step.1 rest
    (next.1, step.2 ++ next.2)

end HealthIndex

/-! ## `src/services/LFHFRatio.js` -/

namespace LFHFRatio

/-- `LFHFRatio.calculate`: pure in the instance state. -/
def calculate (recentRrs : List ℚ) : ℚ :=
  if recentRrs.length < 5 then 0
  else
    let lfPower := calculateBandPower recentRrs (1/25) (3/20)
    let hfPower := calculateBandPower recentRrs (3/20) (2/5)
    if hfPower ≤ 0 then 0 else lfPower / hfPower

/-- `LFHFRatio` instance state: the data window and `this.value`. -/
structure State where
  data : List ℚ
  value : ℚ
deriving DecidableEq, Repr

/-- `LFHFRatio.handleRrInterval`: inherited storage and base publication,
then the unconditional `length >= 5` subclass publication. -/
def handleRrInterval (maxSamples pulses : ℕ) (s : State) (rri : ℚ) :
    State × List ℚ :=
  let base :=
    if validateRrInterval rri then
      let d := addSample maxSamples s.data rri
      ((⟨d, s.value⟩ : State), [calculate (recentSamples pulses d)])
    else
      (s, ([] : List ℚ))
  if 5 ≤ (recentSamples pulses base.1.data).length then
    let v2 := calculate (recentSamples pulses base.1.data)
    ((⟨base.1.data, v2⟩ : State), base.2 ++ [v2])
  else
    (base.1, base.2)

end LFHFRatio

/-- Modelled from the spec: the smoothing rule the claim asserts for every
composite index, `α = clamp(0.5 + Δ/200, 0.5, 0.8)` applied to the raw
value (used only for comparison with the code's smoothing). -/
def specAdaptiveSmooth (raw prev : ℚ) : ℚ :=
  let a := min (max (1/2 + |raw - prev| / 200) (1/2)) (4/5)
  raw * a + prev * (1 - a)

/-! ## `src/services/Ecg.js` — fiducial detection and QT emission -/

namespace Ecg

/-- A `{index, time, value}` record published on a fiducial subject. -/
structure FiducialEvent where
  index : ℕ
  time : ℚ
  value : ℚ
deriving DecidableEq, Repr

/-- A record published on `qtIntervalSubject`. -/
structure QtEvent where
  qtInterval : ℚ
  qPointIndex : ℕ
  tEndIndex : ℕ
  qPointTime : ℚ
  tEndTime : ℚ
  rPeakIndex : ℕ
  rPeakTime : ℚ
deriving DecidableEq, Repr

/-- Everything `EcgService.processForQT` publishes for one refined R-peak:
the Q / T-peak / T-end fiducial events, the QT event, and the updated
"processed R indices" set. -/
structure PeakEmissions where
  qPoints : List FiducialEvent
  tPeaks : List FiducialEvent
  tEnds : List FiducialEvent
  qts : List QtEvent
  processed : List ℕ
deriving DecidableEq, Repr

/-- The per-R-peak body of `EcgService.processForQT` (lines 296–339 of
`Ecg.js`).  `qPoint`, `tPeak` and `tEnd` are the results of
`findQPoint` / `findTPeak` / `findTEndTrapezium` for this peak — the claim
quantifies over whatever triple those searches produced, so they are
parameters here.  `ecgTimes`/`ecgSamples` are the full buffers and
`fullArrayOffset` translates window indices to buffer indices. -/
def processPeakForQT (fs : ℚ) (ecgTimes ecgSamples : List ℚ)
    (fullArrayOffset : ℕ) (processed : List ℕ) (rPeakIndex : ℕ)
    (qPoint tPeak tEnd : Option ℕ) : PeakEmissions :=
  let rPeakFullIndex := fullArrayOffset + rPeakIndex
  if rPeakFullIndex ∈ processed then ⟨[], [], [], [], processed⟩
  else
    match qPoint, tPeak, tEnd with
    | some q, some tp, some te =>
      let qPointFullIndex := fullArrayOffset + q
      let tPeakFullIndex := fullArrayOffset + tp
      let tEndFullIndex := fullArrayOffset + te
      let qtInterval := (((te : ℚ) - (q : ℚ)) / fs) * 1000
      if 230 ≤ qtInterval ∧ qtInterval ≤ 660 ∧ tp < te ∧ q < tp then
        ⟨[⟨qPointFullIndex, ecgTimes.getD qPointFullIndex 0,
            ecgSamples.getD qPointFullIndex 0⟩],
         [⟨tPeakFullIndex, ecgTimes.getD tPeakFullIndex 0,
            ecgSamples.getD tPeakFullIndex 0⟩],
         [⟨tEndFullIndex, ecgTimes.getD tEndFullIndex 0,
            ecgSamples.getD tEndFullIndex 0⟩],
         [⟨qtInterval, qPointFullIndex, tEndFullIndex,
            ecgTimes.getD qPointFullIndex 0, ecgTimes.getD tEndFullIndex 0,
            rPeakFullIndex, ecgTimes.getD rPeakFullIndex 0⟩],
         processed ++ [rPeakFullIndex]⟩
      else ⟨[], [], [], [], processed⟩
    | _, _, _ => ⟨[], [], [], [], processed⟩

/-- `EcgService.calculateDerivative` read at index `i` (the JS array holds
`0` at index `0` and `samples[i] - samples[i-1]` elsewhere). -/
def calculateDerivative (samples : List ℚ) (i : ℕ) : ℚ :=
  if i = 0 ∨ samples.length ≤ i then 0
  else samples.getD i 0 - samples.getD (i - 1) 0

/-- The ±5-neighbourhood local-maximum test of `detectRPeaks`. -/
def localMaxAt (s : List ℚ) (i : ℕ) : Bool :=
  (List.range' (i - 5) (min (s.length - 1) (i + 5) + 1 - (i - 5))).all
    (fun j => j == i || ! decide (s.getD i 0 < s.getD j 0))

/-- `EcgService.calculateRPeakThreshold`: 90th percentile blended 50/50 with
the mean of the samples above it. -/
def calculateRPeakThreshold (samples : List ℚ) : ℚ :=
  let sortedSamples := samples.insertionSort (· ≤ ·)
  let percentile90 :=
    sortedSamples.getD (⌊(samples.length : ℚ) * (9/10)⌋).toNat 0
  let potentialPeaks := samples.filter (fun v => percentile90 < v)
  let peaksMean := potentialPeaks.sum /
    (if potentialPeaks.length = 0 then 1 else (potentialPeaks.length : ℚ))
  percentile90 * (1/2) + peaksMean * (1/2)

/-- One iteration of the `detectRPeaks` scan at index `i`.  The accepted
peaks are accumulated most-recent-first (so `peaks.head?` is the JS
`peaks[peaks.length - 1]`). -/
def detectStep (s : List ℚ) (thr : ℚ) (minDistance : ℤ)
    (peaks : List ℕ) (i : ℕ) : List ℕ :=
  if ¬ localMaxAt s i then peaks
  else if thr < s.getD i 0 ∧
      ((0 < i ∧ thr / 15 < calculateDerivative s (i - 1)) ∨
       (i + 1 < s.length ∧ calculateDerivative s i < -(thr / 15))) then
    match peaks with
    | [] => [i]
    | last :: rest =>
      if minDistance ≤ (i : ℤ) - (last : ℤ) then i :: last :: rest
      else if s.getD last 0 * (11/10) < s.getD i 0 then i :: rest
      else last :: rest
  else peaks

/-- `EcgService.detectRPeaks`: scan indices `10 … samples.length - 11` with
the dynamic threshold and the `floor(0.4 · fs)`-sample refractory rule. -/
def detectRPeaks (fs : ℚ) (samples : List ℚ) : List ℕ :=
  ((List.range' 10 (samples.length - 20)).foldl
    (detectStep samples (calculateRPeakThreshold samples)
      ⌊(400 / 1000 : ℚ) * fs⌋) []).reverse

/-- `EcgService.refineRPeaks`: relocate each detected peak to the argmax of
the unfiltered signal in a ±`ceil(0.02 · fs)`-sample window around it. -/
def refineRPeaks (fs : ℚ) (rPeaks : List ℕ) (originalSignal : List ℚ) :
    List ℕ :=
  rPeaks.map (fun peakIndex =>
    let searchWindowSamples := (⌈(2 / 100 : ℚ) * fs⌉).toNat
    let startIndex := peakIndex - searchWindowSamples
    let endIndex := min (originalSignal.length - 1)
      (peakIndex + searchWindowSamples)
    ((List.range' startIndex (endIndex + 1 - startIndex)).foldl
      (fun acc j =>
        if acc.1 < originalSignal.getD j 0 then (originalSignal.getD j 0, j)
        else acc)
      (originalSignal.getD peakIndex 0, peakIndex)).2)

/-- The timestamp `EcgService.handleData` assigns to buffer index `k` of a
stream started from scratch: `t_k = (k + 1) / fs`. -/
def ecgTimeAt (fs : ℚ) (k : ℕ) : ℚ := ((k : ℚ) + 1) / fs

/-- Sample `i` of a concrete 200-sample normalized ECG window (200 samples is
the minimum `processForQT` operates on): two QRS-like spikes of height 100 at
indices 100 and 152 — exactly `⌊0.4 · 130⌋ = 52` samples apart — each led in
by a value of 50 one sample earlier. -/
def exSf (i : ℕ) : ℚ :=
  if i = 99 ∨ i = 151 then 50 else if i = 100 ∨ i = 152 then 100 else 0

/-- The concrete normalized window. -/
def exS : List ℚ := (List.range 200).map exSf

/-- Sample `i` of the corresponding unfiltered ECG buffer: its local maxima
sit at indices 103 and 149, inside the ±20 ms refinement windows of the two
detected peaks. -/
def exOf (i : ℕ) : ℚ :=
  if i = 103 then 200 else if i = 149 then 300 else 0

/-- The concrete unfiltered buffer. -/
def exO : List ℚ := (List.range 200).map exOf

end Ecg

/-- The window of 20 alternating 900/1100 ms R-R intervals from the spec's
scenario 2. -/
def altWindow : List ℚ :=
  (List.range 20).map (fun i => if i % 2 = 0 then 900 else 1100)

/-- Every entry of the stress history lies in `[0, 100]`. -/
def StressIndex.histInv (s : StressIndex.State) : Prop :=
  ∀ x ∈ s.stressHist, 0 ≤ x ∧ x ≤ 100

/-- Every entry of the energy history lies in `[0, 100]`. -/
def EnergyIndex.histInv (s : EnergyIndex.State) : Prop :=
  ∀ x ∈ s.energyHist, 0 ≤ x ∧ x ≤ 100

/-- The health history is still empty while the window is below the 5-interval
gate (it is only ever written by the gated branch of `calculate`). -/
def HealthIndex.gateInv (pulses : ℕ) (s : HealthIndex.State) : Prop :=
  (recentSamples pulses s.data).length < 5 → s.healthHist = []

/-! ## Helper lemmas -/

theorem recentSamples_length (p : ℕ) (d : List ℚ) :
    (recentSamples p d).length = min p d.length := by
  simp [recentSamples]
  omega

theorem addSample_length (ms : ℕ) (d : List ℚ) (x : ℚ) :
    d.length ≤ (addSample ms d x).length := by
  simp only [addSample]
  split
  · simp
  · simp

theorem mem_pushHist {h : List ℚ} {v x : ℚ}
    (hx : x ∈ StressIndex.pushHist h v) : x ∈ h ∨ x = v := by
  simp only [StressIndex.pushHist] at hx
  split at hx
  · have hx' : x ∈ h ++ [v] := (List.tail_sublist _).subset hx
    simpa using hx'
  · simpa using hx

theorem convex_bounds {a b w : ℚ} (ha0 : 0 ≤ a) (ha1 : a ≤ 100)
    (hb0 : 0 ≤ b) (hb1 : b ≤ 100) (hw0 : 0 ≤ w) (hw1 : w ≤ 1) :
    0 ≤ a * w + b * (1 - w) ∧ a * w + b * (1 - w) ≤ 100 := by
  constructor <;> nlinarith

theorem stressNormalizeLFHF_bounds (v : ℚ) :
    0 ≤ StressIndex.normalizeLFHF v ∧ StressIndex.normalizeLFHF v ≤ 100 := by
  unfold StressIndex.normalizeLFHF
  split_ifs with h1 h2 h3 h4
  · norm_num
  · constructor <;> linarith
  · constructor <;> linarith
  · constructor <;> linarith
  · exact ⟨le_min (by linarith) (by norm_num), min_le_right _ _⟩

theorem stressNormalizeSDNN_bounds (v : ℚ) :
    0 ≤ StressIndex.normalizeSDNN v ∧ StressIndex.normalizeSDNN v ≤ 100 := by
  unfold StressIndex.normalizeSDNN
  split_ifs with h1 h2 h3
  · norm_num
  · constructor <;> linarith
  · constructor <;> linarith
  · exact ⟨le_max_right _ _, max_le (by linarith) (by norm_num)⟩

theorem stressNormalizeRMSSD_bounds (v : ℚ) :
    0 ≤ StressIndex.normalizeRMSSD v ∧ StressIndex.normalizeRMSSD v ≤ 100 := by
  unfold StressIndex.normalizeRMSSD
  split_ifs with h1 h2 h3
  · norm_num
  · constructor <;> linarith
  · constructor <;> linarith
  · exact ⟨le_max_right _ _, max_le (by linarith) (by norm_num)⟩

theorem stressNormalizeTP_bounds (v : ℚ) :
    0 ≤ StressIndex.normalizeTotalPower v ∧
      StressIndex.normalizeTotalPower v ≤ 100 := by
  unfold StressIndex.normalizeTotalPower
  split_ifs with h1 h2 h3
  · norm_num
  · constructor <;> linarith
  · constructor <;> linarith
  · exact ⟨le_max_right _ _, max_le (by linarith) (by norm_num)⟩

theorem energyNormalizeLFHF_bounds (v : ℚ) :
    0 ≤ EnergyIndex.normalizeLFHF v ∧ EnergyIndex.normalizeLFHF v ≤ 100 := by
  unfold EnergyIndex.normalizeLFHF
  split_ifs with h1 h2 h3 h4
  · norm_num
  · constructor <;> linarith
  · constructor <;> linarith
  · constructor <;> linarith
  · exact ⟨le_min (by linarith) (by norm_num), min_le_right _ _⟩

theorem energyNormalizeSDNN_bounds (v : ℚ) :
    0 ≤ EnergyIndex.normalizeSDNN v ∧ EnergyIndex.normalizeSDNN v ≤ 100 := by
  unfold EnergyIndex.normalizeSDNN
  split_ifs with h1 h2 h3
  · norm_num
  · constructor <;> linarith
  · constructor <;> linarith
  · exact ⟨le_max_right _ _, max_le (by linarith) (by norm_num)⟩

theorem energyNormalizeRMSSD_bounds (v : ℚ) :
    0 ≤ EnergyIndex.normalizeRMSSD v ∧ EnergyIndex.normalizeRMSSD v ≤ 100 := by
  unfold EnergyIndex.normalizeRMSSD
  split_ifs with h1 h2 h3
  · norm_num
  · constructor <;> linarith
  · constructor <;> linarith
  · exact ⟨le_max_right _ _, max_le (by linarith) (by norm_num)⟩

theorem energyNormalizeTP_bounds (v : ℚ) :
    0 ≤ EnergyIndex.normalizeTotalPower v ∧
      EnergyIndex.normalizeTotalPower v ≤ 100 := by
  unfold EnergyIndex.normalizeTotalPower
  split_ifs with h1 h2 h3
  · norm_num
  · constructor <;> linarith
  · constructor <;> linarith
  · exact ⟨le_max_right _ _, max_le (by linarith) (by norm_num)⟩

theorem sns_bounds {a b c : ℚ} (ha : 0 ≤ a ∧ a ≤ 100) (hb : 0 ≤ b ∧ b ≤ 100)
    (hc : 0 ≤ c ∧ c ≤ 100) :
    0 ≤ StressIndex.calculateSNS a b c ∧ StressIndex.calculateSNS a b c ≤ 100 := by
  unfold StressIndex.calculateSNS
  obtain ⟨ha0, ha1⟩ := ha; obtain ⟨hb0, hb1⟩ := hb; obtain ⟨hc0, hc1⟩ := hc
  constructor <;> linarith

theorem psns_bounds {a b c d : ℚ} (ha : 0 ≤ a ∧ a ≤ 100) (hb : 0 ≤ b ∧ b ≤ 100)
    (hc : 0 ≤ c ∧ c ≤ 100) (hd : 0 ≤ d ∧ d ≤ 100) :
    0 ≤ StressIndex.calculatePSNS a b c d ∧
      StressIndex.calculatePSNS a b c d ≤ 100 := by
  unfold StressIndex.calculatePSNS
  obtain ⟨ha0, ha1⟩ := ha; obtain ⟨hb0, hb1⟩ := hb
  obtain ⟨hc0, hc1⟩ := hc; obtain ⟨hd0, hd1⟩ := hd
  constructor <;> linarith

theorem energyPsns_bounds {a b c d : ℚ} (ha : 0 ≤ a ∧ a ≤ 100)
    (hb : 0 ≤ b ∧ b ≤ 100) (hc : 0 ≤ c ∧ c ≤ 100) (hd : 0 ≤ d ∧ d ≤ 100) :
    0 ≤ EnergyIndex.calculatePSNS a b c d ∧
      EnergyIndex.calculatePSNS a b c d ≤ 100 := by
  unfold EnergyIndex.calculatePSNS
  obtain ⟨ha0, ha1⟩ := ha; obtain ⟨hb0, hb1⟩ := hb
  obtain ⟨hc0, hc1⟩ := hc; obtain ⟨hd0, hd1⟩ := hd
  constructor <;> linarith

theorem finalStress_bounds (sns psns : ℚ) :
    0 ≤ StressIndex.calculateFinalStressIndex sns psns ∧
      StressIndex.calculateFinalStressIndex sns psns ≤ 100 := by
  unfold StressIndex.calculateFinalStressIndex
  exact ⟨le_min (by norm_num) (le_max_left 0 _), min_le_left _ _⟩

theorem jsRound_clamp_bounds (x : ℚ) :
    0 ≤ jsRound (min 100 (max 0 x)) ∧ jsRound (min 100 (max 0 x)) ≤ 100 := by
  have h0 : (0 : ℚ) ≤ min 100 (max 0 x) := le_min (by norm_num) (le_max_left 0 _)
  have h1 : min 100 (max 0 x) ≤ 100 := min_le_left _ _
  unfold jsRound
  constructor
  · have : (0 : ℤ) ≤ ⌊min 100 (max 0 x) + 1/2⌋ := by
      apply Int.le_floor.mpr
      push_cast
      linarith
    exact_mod_cast this
  · have : ⌊min 100 (max 0 x) + 1/2⌋ ≤ (100 : ℤ) := by
      have h2 : min 100 (max 0 x) + 1/2 < ((101 : ℤ) : ℚ) := by push_cast; linarith
      have := Int.floor_lt.mpr h2
      omega
    exact_mod_cast this

theorem smoothStress_bounds {hist : List ℚ} {raw : ℚ}
    (hh : ∀ x ∈ hist, 0 ≤ x ∧ x ≤ 100) (hr0 : 0 ≤ raw) (hr1 : raw ≤ 100) :
    0 ≤ StressIndex.smoothStressIndex hist raw ∧
      StressIndex.smoothStressIndex hist raw ≤ 100 := by
  unfold StressIndex.smoothStressIndex
  cases hl : hist.getLast? with
  | none => exact ⟨hr0, hr1⟩
  | some prev =>
    obtain ⟨hp0, hp1⟩ := hh prev (List.mem_of_mem_getLast? hl)
    have hd : (0 : ℚ) ≤ |raw - prev| := abs_nonneg _
    exact convex_bounds hr0 hr1 hp0 hp1
      (le_min (by linarith) (by norm_num))
      (le_trans (min_le_right _ _) (by norm_num))

theorem smoothEnergy_bounds {hist : List ℚ} {raw : ℚ}
    (hh : ∀ x ∈ hist, 0 ≤ x ∧ x ≤ 100) (hr0 : 0 ≤ raw) (hr1 : raw ≤ 100) :
    0 ≤ EnergyIndex.smoothEnergy hist raw ∧
      EnergyIndex.smoothEnergy hist raw ≤ 100 := by
  unfold EnergyIndex.smoothEnergy
  cases hl : hist.getLast? with
  | none => exact ⟨hr0, hr1⟩
  | some prev =>
    obtain ⟨hp0, hp1⟩ := hh prev (List.mem_of_mem_getLast? hl)
    have hd : (0 : ℚ) ≤ |raw - prev| := abs_nonneg _
    exact convex_bounds hr0 hr1 hp0 hp1
      (le_min (by linarith) (by norm_num))
      (le_trans (min_le_right _ _) (by norm_num))

theorem getLastStressValue_bounds (h1 h2 : List ℚ)
    (hh : ∀ x ∈ h1, 0 ≤ x ∧ x ≤ 100) :
    0 ≤ StressIndex.getLastStressValue h1 h2 ∧
      StressIndex.getLastStressValue h1 h2 ≤ 100 := by
  unfold StressIndex.getLastStressValue
  cases hl : h1.getLast? with
  | some v => exact hh v (List.mem_of_mem_getLast? hl)
  | none =>
    cases h2.getLast? with
    | some l => exact stressNormalizeLFHF_bounds l
    | none => norm_num

theorem stress_gated_helper (hist : List ℚ)
    (hh : ∀ x ∈ hist, 0 ≤ x ∧ x ≤ 100) (a b c d : ℚ) :
    0 ≤ StressIndex.smoothStressIndex hist
        (StressIndex.calculateFinalStressIndex
          (StressIndex.calculateSNS (StressIndex.normalizeLFHF a)
            (StressIndex.normalizeSDNN b) (StressIndex.normalizeRMSSD c))
          (StressIndex.calculatePSNS (StressIndex.normalizeLFHF a)
            (StressIndex.normalizeSDNN b) (StressIndex.normalizeRMSSD c)
            (StressIndex.normalizeTotalPower d))) ∧
      StressIndex.smoothStressIndex hist
        (StressIndex.calculateFinalStressIndex
          (StressIndex.calculateSNS (StressIndex.normalizeLFHF a)
            (StressIndex.normalizeSDNN b) (StressIndex.normalizeRMSSD c))
          (StressIndex.calculatePSNS (StressIndex.normalizeLFHF a)
            (StressIndex.normalizeSDNN b) (StressIndex.normalizeRMSSD c)
            (StressIndex.normalizeTotalPower d))) ≤ 100 :=
  smoothStress_bounds hh (finalStress_bounds _ _).1 (finalStress_bounds _ _).2

theorem stress_calc_bounds (p : ℕ) (sd rm : ℚ) (s : StressIndex.State)
    (hInv : StressIndex.histInv s) :
    (0 ≤ (StressIndex.calculate p sd rm s).1 ∧
        (StressIndex.calculate p sd rm s).1 ≤ 100) ∧
      StressIndex.histInv (StressIndex.calculate p sd rm s).2 := by
  simp only [StressIndex.calculate]
  split_ifs with hlen hr
  · exact ⟨getLastStressValue_bounds _ _ hInv, hInv⟩
  all_goals
    dsimp only
    refine ⟨stress_gated_helper s.stressHist hInv _ sd rm _, ?_⟩
    intro x hx
    rcases mem_pushHist hx with hmem | heq
    · exact hInv x hmem
    · exact heq ▸ stress_gated_helper s.stressHist hInv _ sd rm _

theorem stress_handle_bounds (ms p : ℕ) (sd rm : ℚ) (s : StressIndex.State)
    (rri : ℚ) (hInv : StressIndex.histInv s) :
    StressIndex.histInv (StressIndex.handleRrInterval ms p sd rm s rri).1 ∧
      ∀ x ∈ (StressIndex.handleRrInterval ms p sd rm s rri).2,
        0 ≤ x ∧ x ≤ 100 := by
  simp only [StressIndex.handleRrInterval]
  by_cases hv : validateRrInterval rri <;> simp only [hv, if_true, if_false]
  · have hc1 := stress_calc_bounds p sd rm
      { s with data := addSample ms s.data rri } hInv
    split_ifs with h5
    · have hc2 := stress_calc_bounds p sd rm _ hc1.2
      refine ⟨hc2.2, ?_⟩
      intro x hx
      simp only [List.mem_append, List.mem_singleton, List.mem_cons,
        List.not_mem_nil, or_false] at hx
      rcases hx with hx | hx
      · exact hx ▸ hc1.1
      · exact hx ▸ hc2.1
    · refine ⟨hc1.2, ?_⟩
      intro x hx
      simp only [List.mem_singleton, List.mem_cons, List.not_mem_nil,
        or_false] at hx
      exact hx ▸ hc1.1
  · split_ifs with h5
    · have hc2 := stress_calc_bounds p sd rm s hInv
      refine ⟨hc2.2, ?_⟩
      intro x hx
      simp only [List.nil_append, List.mem_singleton, List.mem_cons,
        List.not_mem_nil, or_false] at hx
      exact hx ▸ hc2.1
    · exact ⟨hInv, by intro x hx; simp at hx⟩

theorem energy_gated_helper (hist : List ℚ)
    (hh : ∀ x ∈ hist, 0 ≤ x ∧ x ≤ 100) (a b c d : ℚ) :
    0 ≤ EnergyIndex.smoothEnergy hist
        (EnergyIndex.calculatePSNS (EnergyIndex.normalizeLFHF a)
            (EnergyIndex.normalizeSDNN b) (EnergyIndex.normalizeRMSSD c)
            (EnergyIndex.normalizeTotalPower d) * (1/2) +
          (100 - EnergyIndex.normalizeSDNN b) * (1/5) +
          (100 - EnergyIndex.normalizeRMSSD c) * (1/5) +
          (100 - EnergyIndex.normalizeTotalPower d) * (1/10)) ∧
      EnergyIndex.smoothEnergy hist
        (EnergyIndex.calculatePSNS (EnergyIndex.normalizeLFHF a)
            (EnergyIndex.normalizeSDNN b) (EnergyIndex.normalizeRMSSD c)
            (EnergyIndex.normalizeTotalPower d) * (1/2) +
          (100 - EnergyIndex.normalizeSDNN b) * (1/5) +
          (100 - EnergyIndex.normalizeRMSSD c) * (1/5) +
          (100 - EnergyIndex.normalizeTotalPower d) * (1/10)) ≤ 100 := by
  have hS := energyNormalizeSDNN_bounds b
  have hR := energyNormalizeRMSSD_bounds c
  have hT := energyNormalizeTP_bounds d
  have hP := energyPsns_bounds (energyNormalizeLFHF_bounds a) hS hR hT
  exact smoothEnergy_bounds hh (by linarith [hP.1, hS.2, hR.2, hT.2])
    (by linarith [hP.2, hS.1, hR.1, hT.1])

theorem energy_calc_bounds (p : ℕ) (sd rm : ℚ) (s : EnergyIndex.State)
    (hInv : EnergyIndex.histInv s) :
    (0 ≤ (EnergyIndex.calculate p sd rm s).1 ∧
        (EnergyIndex.calculate p sd rm s).1 ≤ 100) ∧
      EnergyIndex.histInv (EnergyIndex.calculate p sd rm s).2 := by
  simp only [EnergyIndex.calculate]
  split_ifs with hlen hr
  · refine ⟨?_, hInv⟩
    cases hl : s.energyHist.getLast? with
    | some v => simpa [hl] using hInv v (List.mem_of_mem_getLast? hl)
    | none => simp [hl]
  all_goals
    dsimp only
    refine ⟨jsRound_clamp_bounds _, ?_⟩
    intro x hx
    rcases mem_pushHist hx with hmem | heq
    · exact hInv x hmem
    · exact heq ▸ energy_gated_helper s.energyHist hInv _ sd rm _

theorem energy_handle_bounds (ms p : ℕ) (sd rm : ℚ) (s : EnergyIndex.State)
    (rri : ℚ) (hInv : EnergyIndex.histInv s) :
    EnergyIndex.histInv (EnergyIndex.handleRrInterval ms p sd rm s rri).1 ∧
      ∀ x ∈ (EnergyIndex.handleRrInterval ms p sd rm s rri).2,
        0 ≤ x ∧ x ≤ 100 := by
  simp only [EnergyIndex.handleRrInterval]
  by_cases hv : validateRrInterval rri <;> simp only [hv, if_true, if_false]
  · have hc1 := energy_calc_bounds p sd rm
      { s with data := addSample ms s.data rri } hInv
    split_ifs with h5
    · have hc2 := energy_calc_bounds p sd rm _ hc1.2
      refine ⟨hc2.2, ?_⟩
      intro x hx
      simp only [List.mem_append, List.mem_singleton, List.mem_cons,
        List.not_mem_nil, or_false] at hx
      rcases hx with hx | hx
      · exact hx ▸ hc1.1
      · exact hx ▸ hc2.1
    · refine ⟨hc1.2, ?_⟩
      intro x hx
      simp only [List.mem_singleton, List.mem_cons, List.not_mem_nil,
        or_false] at hx
      exact hx ▸ hc1.1
  · split_ifs with h5
    · have hc2 := energy_calc_bounds p sd rm s hInv
      refine ⟨hc2.2, ?_⟩
      intro x hx
      simp only [List.nil_append, List.mem_singleton, List.mem_cons,
        List.not_mem_nil, or_false] at hx
      exact hx ▸ hc2.1
    · exact ⟨hInv, by intro x hx; simp at hx⟩

theorem energy_run_bounds (ms p : ℕ) :
    ∀ (inputs : List (ℚ × ℚ × ℚ)) (s : EnergyIndex.State),
      EnergyIndex.histInv s →
      ∀ x ∈ (EnergyIndex.run ms p s inputs).2, 0 ≤ x ∧ x ≤ 100 := by
  intro inputs
  induction inputs with
  | nil => intro s _ x hx; simp [EnergyIndex.run] at hx
  | cons hd tl ih =>
    intro s hInv x hx
    obtain ⟨rri, sd, rm⟩ := hd
    simp only [EnergyIndex.run, List.mem_append] at hx
    have hstep := energy_handle_bounds ms p sd rm s rri hInv
    rcases hx with hx | hx
    · exact hstep.2 x hx
    · exact ih _ hstep.1 x hx

theorem health_calc_bounds (p : ℕ) (sd rm sv ev : ℚ) (s : HealthIndex.State)
    (hInv : HealthIndex.gateInv p s) :
    (0 ≤ (HealthIndex.calculate p sd rm sv ev s).1 ∧
        (HealthIndex.calculate p sd rm sv ev s).1 ≤ 100) ∧
      HealthIndex.gateInv p (HealthIndex.calculate p sd rm sv ev s).2 ∧
      (HealthIndex.calculate p sd rm sv ev s).2.data = s.data := by
  simp only [HealthIndex.calculate]
  split_ifs with hlen
  · rw [hInv hlen]
    exact ⟨by norm_num, hInv, rfl⟩
  · dsimp only
    refine ⟨jsRound_clamp_bounds _, ?_, rfl⟩
    intro h
    exact absurd h hlen

theorem health_gate_addSample (ms p : ℕ) (s : HealthIndex.State) (rri : ℚ)
    (hInv : HealthIndex.gateInv p s) :
    HealthIndex.gateInv p { s with data := addSample ms s.data rri } := by
  intro h
  apply hInv
  have hlen := addSample_length ms s.data rri
  rw [recentSamples_length] at h ⊢
  simp only at h
  omega

theorem health_handle_bounds (ms p : ℕ) (sd rm sv ev : ℚ)
    (s : HealthIndex.State) (rri : ℚ) (hInv : HealthIndex.gateInv p s) :
    HealthIndex.gateInv p (HealthIndex.handleRrInterval ms p sd rm sv ev s rri).1 ∧
      ∀ x ∈ (HealthIndex.handleRrInterval ms p sd rm sv ev s rri).2,
        0 ≤ x ∧ x ≤ 100 := by
  simp only [HealthIndex.handleRrInterval]
  by_cases hv : validateRrInterval rri <;> simp only [hv, if_true, if_false]
  · have hg1 := health_gate_addSample ms p s rri hInv
    have hc1 := health_calc_bounds p sd rm sv ev
      { s with data := addSample ms s.data rri } hg1
    split_ifs with h5
    · have hc2 := health_calc_bounds p sd rm sv ev _ hc1.2.1
      refine ⟨hc2.2.1, ?_⟩
      intro x hx
      simp only [List.mem_append, List.mem_singleton, List.mem_cons,
        List.not_mem_nil, or_false] at hx
      rcases hx with hx | hx
      · exact hx ▸ hc1.1
      · exact hx ▸ hc2.1
    · refine ⟨hc1.2.1, ?_⟩
      intro x hx
      simp only [List.mem_singleton, List.mem_cons, List.not_mem_nil,
        or_false] at hx
      exact hx ▸ hc1.1
  · split_ifs with h5
    · have hc2 := health_calc_bounds p sd rm sv ev s hInv
      refine ⟨hc2.2.1, ?_⟩
      intro x hx
      simp only [List.nil_append, List.mem_singleton, List.mem_cons,
        List.not_mem_nil, or_false] at hx
      exact hx ▸ hc2.1
    · exact ⟨hInv, by intro x hx; simp at hx⟩

theorem health_run_bounds (ms p : ℕ) :
    ∀ (inputs : List (ℚ × ℚ × ℚ × ℚ × ℚ)) (s : HealthIndex.State),
      HealthIndex.gateInv p s →
      ∀ x ∈ (HealthIndex.run ms p s inputs).2, 0 ≤ x ∧ x ≤ 100 := by
  intro inputs
  induction inputs with
  | nil => intro s _ x hx; simp [HealthIndex.run] at hx
  | cons hd tl ih =>
    intro s hInv x hx
    obtain ⟨rri, sd, rm, sv, ev⟩ := hd
    simp only [HealthIndex.run, List.mem_append] at hx
    have hstep := health_handle_bounds ms p sd rm sv ev s rri hInv
    rcases hx with hx | hx
    · exact hstep.2 x hx
    · exact ih _ hstep.1 x hx

theorem stress_run_bounds (ms p : ℕ) :
    ∀ (inputs : List (ℚ × ℚ × ℚ)) (s : StressIndex.State),
      StressIndex.histInv s →
      ∀ x ∈ (StressIndex.run ms p s inputs).2, 0 ≤ x ∧ x ≤ 100 := by
  intro inputs
  induction inputs with
  | nil => intro s _ x hx; simp [StressIndex.run] at hx
  | cons hd tl ih =>
    intro s hInv x hx
    obtain ⟨rri, sd, rm⟩ := hd
    simp only [StressIndex.run, List.mem_append] at hx
    have hstep := stress_handle_bounds ms p sd rm s rri hInv
    rcases hx with hx | hx
    · exact hstep.2 x hx
    · exact ih _ hstep.1 x hx

theorem stress_calc_data (p : ℕ) (sd rm : ℚ) (s : StressIndex.State) :
    (StressIndex.calculate p sd rm s).2.data = s.data := by
  simp only [StressIndex.calculate]
  split_ifs <;> rfl

/-! ## Claims -/

/-- C2: the spec (and the repository's own metrics documentation, which
defines MxDMn as `max(RR) - min(RR)`, as does the `unnamed/part_012`
revision) promises `MxDMn = max(W) - min(W)`, i.e. `200` on the alternating
900/1100 window; the shipped `src/services/MxDMn.js` instead returns the mean
absolute deviation about the mean, which is `100` on that window. -/
theorem mxdmn_code_vs_doc :
    MxDMn.calculate altWindow = 100 ∧ calculateMxDMn altWindow = 200 := by
  constructor
  · norm_num [MxDMn.calculate, altWindow, calculateMean, List.range_succ]
  · norm_num [calculateMxDMn, altWindow, jsMaxList, jsMinList, List.range_succ]

/-- C3: the spec (and the repository's metrics documentation, "porcentaje de
intervalos RR que caen dentro de ±50 ms") promises the percentage of
intervals *within* ±50 ms; the shipped `AMo50.calculate` counts those
*more than* 50 ms away.  On the window `[1000, 1060]` (both intervals 30 ms
from the mean 1030) the code returns `0` where the claim predicts `100`. -/
theorem amo50_code_vs_doc :
    AMo50.calculate [1000, 1060] = 0 ∧ specAMo50Within [1000, 1060] = 100 := by
  constructor
  · norm_num [AMo50.calculate, calculateMean]
  · norm_num [specAMo50Within, calculateMean]

/-- C8: on every window of at least 5 R-R intervals, `TotalPower.calculate`
equals the sum of the values the VLF, LF and HF calculators produce on the
same window (exactly, hence within any floating tolerance; the `4.5`/`9`
normalisation arguments of `LFPower`/`HFPower` are ignored by the
three-parameter `calculateBandPower` the services import). -/
theorem total_power_band_sum (w : List ℚ) (_h5 : 5 ≤ w.length) :
    TotalPower.calculate w =
      VLFPower.calculate w + LFPower.calculate w + HFPower.calculate w := rfl

theorem total_power_band_sum_witness :
    5 ≤ ([900, 1000, 1100, 1000, 900] : List ℚ).length ∧
      TotalPower.calculate [900, 1000, 1100, 1000, 900] =
        VLFPower.calculate [900, 1000, 1100, 1000, 900] +
          LFPower.calculate [900, 1000, 1100, 1000, 900] +
          HFPower.calculate [900, 1000, 1100, 1000, 900] :=
  ⟨by norm_num, total_power_band_sum _ (by norm_num)⟩

/-- C5 (amended): `HealthIndex.smoothHealth` uses the claimed weight
`α = clamp(0.5 + Δ/200, 0.5, 0.8)`, but `StressIndex.smoothStressIndex` and
`EnergyIndex.smoothEnergy` use `clamp(0.7 + Δ/100, 0.7, 0.9)`; all three pass
the first value through unsmoothed. -/
theorem adaptive_smoothing_formulas :
    (∀ (h : List ℚ) (prev raw : ℚ),
        HealthIndex.smoothHealth (h ++ [prev]) raw =
          raw * min (max (1/2 + |raw - prev| / 200) (1/2)) (4/5) +
            prev * (1 - min (max (1/2 + |raw - prev| / 200) (1/2)) (4/5))) ∧
    (∀ (h : List ℚ) (prev raw : ℚ),
        StressIndex.smoothStressIndex (h ++ [prev]) raw =
          raw * min (max (7/10 + |raw - prev| / 100) (7/10)) (9/10) +
            prev * (1 - min (max (7/10 + |raw - prev| / 100) (7/10)) (9/10))) ∧
    (∀ (h : List ℚ) (prev raw : ℚ),
        EnergyIndex.smoothEnergy (h ++ [prev]) raw =
          raw * min (max (7/10 + |raw - prev| / 100) (7/10)) (9/10) +
            prev * (1 - min (max (7/10 + |raw - prev| / 100) (7/10)) (9/10))) ∧
    (∀ raw : ℚ, HealthIndex.smoothHealth [] raw = raw ∧
        StressIndex.smoothStressIndex [] raw = raw ∧
        EnergyIndex.smoothEnergy [] raw = raw) := by
  refine ⟨?_, ?_, ?_, ?_⟩
  · intro h prev raw
    have hd : (0 : ℚ) ≤ |raw - prev| := abs_nonneg _
    rw [max_eq_left (by linarith)]
    simp [HealthIndex.smoothHealth, List.getLast?_concat]
  · intro h prev raw
    have hd : (0 : ℚ) ≤ |raw - prev| := abs_nonneg _
    rw [max_eq_left (by linarith)]
    simp [StressIndex.smoothStressIndex, List.getLast?_concat]
  · intro h prev raw
    have hd : (0 : ℚ) ≤ |raw - prev| := abs_nonneg _
    rw [max_eq_left (by linarith)]
    simp [EnergyIndex.smoothEnergy, List.getLast?_concat]
  · intro raw
    refine ⟨rfl, rfl, rfl⟩

/-- C5 counterexample: with previous value 50 and raw value 60,
`smoothStressIndex` yields `58` (weight `0.8`) while the claimed rule
`α = clamp(0.5 + Δ/200, 0.5, 0.8)` yields `55.5` (weight `0.55`). -/
theorem stress_smoothing_not_spec_alpha :
    StressIndex.smoothStressIndex [50] 60 = 58 ∧
      specAdaptiveSmooth 60 50 = 111/2 ∧
      StressIndex.smoothStressIndex [50] 60 ≠ specAdaptiveSmooth 60 50 := by
  have habs : |(60 : ℚ) - 50| = 10 := by
    rw [abs_of_nonneg] <;> norm_num
  have h1 : StressIndex.smoothStressIndex [50] 60 = 58 := by
    simp only [StressIndex.smoothStressIndex, List.getLast?_singleton, habs]
    norm_num
  have h2 : specAdaptiveSmooth 60 50 = 111/2 := by
    simp only [specAdaptiveSmooth, habs]
    norm_num
  exact ⟨h1, h2, by rw [h1, h2]; norm_num⟩

/-- C6 (amended): below the 5-interval gate, `StressIndex.calculate` returns
the last smoothed stress value (falling back to the normalised last LF/HF
value, then 0), `EnergyIndex.calculate` the last smoothed energy value (else
0) and `HealthIndex.calculate` the last health value with `100` — not 0 — on
a cold start; yet the inherited base handler still publishes one such value
for every accepted interval even below the gate. -/
theorem insufficient_data_behaviour :
    (∀ (p : ℕ) (sd rm : ℚ) (s : StressIndex.State),
        (recentSamples p s.data).length < 5 →
        StressIndex.calculate p sd rm s =
          (StressIndex.getLastStressValue s.stressHist s.lfhfHist, s)) ∧
    (∀ (p : ℕ) (sd rm : ℚ) (s : EnergyIndex.State),
        (recentSamples p s.data).length < 5 →
        EnergyIndex.calculate p sd rm s = ((s.energyHist.getLast?).getD 0, s)) ∧
    (∀ (p : ℕ) (sd rm sv ev : ℚ) (s : HealthIndex.State),
        (recentSamples p s.data).length < 5 →
        HealthIndex.calculate p sd rm sv ev s =
          (match s.healthHist.getLast? with
           | none => 100
           | some v => if v = 0 then 100 else v, s)) ∧
    (∀ (ms p : ℕ) (sd rm : ℚ) (s : StressIndex.State) (rri : ℚ),
        validateRrInterval rri →
        (recentSamples p (addSample ms s.data rri)).length < 5 →
        (StressIndex.handleRrInterval ms p sd rm s rri).2 =
          [StressIndex.getLastStressValue s.stressHist s.lfhfHist]) := by
  refine ⟨?_, ?_, ?_, ?_⟩
  · intro p sd rm s h
    simp [StressIndex.calculate, h]
  · intro p sd rm s h
    simp [EnergyIndex.calculate, h]
  · intro p sd rm sv ev s h
    simp [HealthIndex.calculate, h]
  · intro ms p sd rm s rri hv h
    simp only [StressIndex.handleRrInterval, hv, if_true]
    rw [StressIndex.calculate, if_pos h]
    simp [stress_calc_data, h, StressIndex.calculate, Nat.not_le.mpr h]

/-- C6 counterexample: a `HealthIndex` with one stored interval and no prior
emission returns `100`, not the claimed `0`. -/
theorem health_cold_start_not_zero :
    (HealthIndex.calculate 100 0 0 0 0
        ⟨[1000], [], [], [], [], [], [], 100⟩).1 = 100 ∧ (100 : ℚ) ≠ 0 := by
  constructor
  · norm_num [HealthIndex.calculate, recentSamples]
  · norm_num

/-- C7 (amended): an interval enters the window iff `300 ≤ rri ≤ 2000`; a
rejected interval leaves the window unchanged and produces no emission from
the base `RRInt` handler — but an index calculator overriding
`handleRrInterval` (here `StressIndex`) still publishes one recomputed value
for a rejected interval once the window holds at least 5 intervals. -/
theorem rr_validation_range :
    (∀ (ms : ℕ) (calcFn : List ℚ → ℚ) (data : List ℚ) (rri : ℚ),
        ¬ (300 ≤ rri ∧ rri ≤ 2000) →
        RRInt.handleRrInterval ms calcFn data rri = (data, [])) ∧
    (∀ (ms : ℕ) (calcFn : List ℚ → ℚ) (data : List ℚ) (rri : ℚ),
        (300 ≤ rri ∧ rri ≤ 2000) →
        (RRInt.handleRrInterval ms calcFn data rri).1 = addSample ms data rri ∧
        (RRInt.handleRrInterval ms calcFn data rri).2 =
          [calcFn (addSample ms data rri)]) ∧
    (∀ (ms p : ℕ) (sd rm : ℚ) (s : StressIndex.State) (rri : ℚ),
        ¬ (300 ≤ rri ∧ rri ≤ 2000) →
        5 ≤ (recentSamples p s.data).length →
        (StressIndex.handleRrInterval ms p sd rm s rri).1.data = s.data ∧
        ((StressIndex.handleRrInterval ms p sd rm s rri).2).length = 1) := by
  refine ⟨?_, ?_, ?_⟩
  · intro ms calcFn data rri h
    simp [RRInt.handleRrInterval, validateRrInterval, h]
  · intro ms calcFn data rri h
    simp [RRInt.handleRrInterval, validateRrInterval, h]
  · intro ms p sd rm s rri h h5
    have hv : ¬ validateRrInterval rri := h
    simp [StressIndex.handleRrInterval, hv, h5, stress_calc_data]

theorem rr_validation_range_witness :
    RRInt.handleRrInterval 60 (fun _ => (0 : ℚ)) [] 299 = ([], []) ∧
    RRInt.handleRrInterval 60 (fun _ => (0 : ℚ)) [] 2001 = ([], []) ∧
    (RRInt.handleRrInterval 60 (fun _ => (0 : ℚ)) [] 300).2 = [0] ∧
    (RRInt.handleRrInterval 60 (fun _ => (0 : ℚ)) [] 2000).2 = [0] :=
  ⟨rr_validation_range.1 60 _ [] 299 (by norm_num),
   rr_validation_range.1 60 _ [] 2001 (by norm_num),
   (rr_validation_range.2.1 60 _ [] 300 (by norm_num)).2,
   (rr_validation_range.2.1 60 _ [] 2000 (by norm_num)).2⟩

/-- C7 counterexample: a `StressIndex` holding 5 intervals that receives the
invalid interval `250` keeps its window unchanged but still publishes a
value. -/
theorem rejected_interval_still_emits :
    (StressIndex.handleRrInterval 1000 100 0 0
        ⟨[1000, 1000, 1000, 1000, 1000], [], [], [], [], [], 0⟩ 250).1.data =
      [1000, 1000, 1000, 1000, 1000] ∧
    (StressIndex.handleRrInterval 1000 100 0 0
        ⟨[1000, 1000, 1000, 1000, 1000], [], [], [], [], [], 0⟩ 250).2 ≠ [] := by
  have hv : ¬ validateRrInterval (250 : ℚ) := by norm_num [validateRrInterval]
  have h5 : 5 ≤ (recentSamples 100
      (⟨[1000, 1000, 1000, 1000, 1000], [], [], [], [], [], 0⟩ :
        StressIndex.State).data).length := by
    norm_num [recentSamples]
  simp [StressIndex.handleRrInterval, hv, h5, stress_calc_data]

/-- C10: for every accepted R-R interval, once the updated window holds at
least 5 intervals, `StressIndex.handleRrInterval` (and likewise
`LFHFRatio.handleRrInterval`) publishes two values — the base-class
publication and the subclass publication — each produced by a fresh run of
`calculate()` (the second runs on the state the first has already updated);
below the gate exactly one value is published per accepted interval. -/
theorem double_emission_per_interval :
    (∀ (ms p : ℕ) (sd rm : ℚ) (s : StressIndex.State) (rri : ℚ),
        validateRrInterval rri →
        5 ≤ (recentSamples p (addSample ms s.data rri)).length →
        (StressIndex.handleRrInterval ms p sd rm s rri).2 =
          [(StressIndex.calculate p sd rm
              { s with data := addSample ms s.data rri }).1,
           (StressIndex.calculate p sd rm
              (StressIndex.calculate p sd rm
                { s with data := addSample ms s.data rri }).2).1]) ∧
    (∀ (ms p : ℕ) (sd rm : ℚ) (s : StressIndex.State) (rri : ℚ),
        validateRrInterval rri →
        (recentSamples p (addSample ms s.data rri)).length < 5 →
        (StressIndex.handleRrInterval ms p sd rm s rri).2 =
          [(StressIndex.calculate p sd rm
              { s with data := addSample ms s.data rri }).1]) ∧
    (∀ (ms p : ℕ) (s : LFHFRatio.State) (rri : ℚ),
        validateRrInterval rri →
        5 ≤ (recentSamples p (addSample ms s.data rri)).length →
        (LFHFRatio.handleRrInterval ms p s rri).2 =
          [LFHFRatio.calculate (recentSamples p (addSample ms s.data rri)),
           LFHFRatio.calculate (recentSamples p (addSample ms s.data rri))]) ∧
    (∀ (ms p : ℕ) (s : LFHFRatio.State) (rri : ℚ),
        validateRrInterval rri →
        (recentSamples p (addSample ms s.data rri)).length < 5 →
        (LFHFRatio.handleRrInterval ms p s rri).2 =
          [LFHFRatio.calculate (recentSamples p (addSample ms s.data rri))]) := by
  refine ⟨?_, ?_, ?_, ?_⟩
  · intro ms p sd rm s rri hv h5
    simp [StressIndex.handleRrInterval, hv, stress_calc_data, h5]
  · intro ms p sd rm s rri hv h5
    simp [StressIndex.handleRrInterval, hv, stress_calc_data,
      Nat.not_le.mpr h5]
  · intro ms p s rri hv h5
    simp [LFHFRatio.handleRrInterval, hv, h5]
  · intro ms p s rri hv h5
    simp [LFHFRatio.handleRrInterval, hv, Nat.not_le.mpr h5]

theorem double_emission_per_interval_witness :
    ((StressIndex.handleRrInterval 1000 100 0 0
        ⟨[1000, 1000, 1000, 1000], [], [], [], [], [], 0⟩ 1000).2).length = 2 := by
  rw [double_emission_per_interval.1 1000 100 0 0
    ⟨[1000, 1000, 1000, 1000], [], [], [], [], [], 0⟩ 1000
    (by norm_num [validateRrInterval])
    (by norm_num [recentSamples, addSample])]
  rfl

/-- C4: every value a `StressIndex`, `EnergyIndex` or `HealthIndex` session
ever publishes lies in `[0, 100]` — whatever the incoming intervals and
whatever the (square-root valued) SDNN/RMSSD oracles and, for health, the
child index values — covering smoothed values, first emissions and the
hold-last / cold-start paths; and the SNS and PSNS scores computed from the
normalised inputs also lie in `[0, 100]`. -/
theorem composite_indices_in_range :
    (∀ (ms p : ℕ) (inputs : List (ℚ × ℚ × ℚ)) (x : ℚ),
        x ∈ (StressIndex.run ms p StressIndex.State.initial inputs).2 →
        0 ≤ x ∧ x ≤ 100) ∧
    (∀ (ms p : ℕ) (inputs : List (ℚ × ℚ × ℚ)) (x : ℚ),
        x ∈ (EnergyIndex.run ms p EnergyIndex.State.initial inputs).2 →
        0 ≤ x ∧ x ≤ 100) ∧
    (∀ (ms p : ℕ) (inputs : List (ℚ × ℚ × ℚ × ℚ × ℚ)) (x : ℚ),
        x ∈ (HealthIndex.run ms p HealthIndex.State.initial inputs).2 →
        0 ≤ x ∧ x ≤ 100) ∧
    (∀ a b c d : ℚ,
        (0 ≤ StressIndex.calculateSNS (StressIndex.normalizeLFHF a)
              (StressIndex.normalizeSDNN b) (StressIndex.normalizeRMSSD c) ∧
          StressIndex.calculateSNS (StressIndex.normalizeLFHF a)
              (StressIndex.normalizeSDNN b) (StressIndex.normalizeRMSSD c) ≤ 100) ∧
        (0 ≤ StressIndex.calculatePSNS (StressIndex.normalizeLFHF a)
              (StressIndex.normalizeSDNN b) (StressIndex.normalizeRMSSD c)
              (StressIndex.normalizeTotalPower d) ∧
          StressIndex.calculatePSNS (StressIndex.normalizeLFHF a)
              (StressIndex.normalizeSDNN b) (StressIndex.normalizeRMSSD c)
              (StressIndex.normalizeTotalPower d) ≤ 100)) := by
  refine ⟨?_, ?_, ?_, ?_⟩
  · intro ms p inputs x hx
    refine stress_run_bounds ms p inputs _ ?_ x hx
    intro y hy
    simp [StressIndex.State.initial] at hy
  · intro ms p inputs x hx
    refine energy_run_bounds ms p inputs _ ?_ x hx
    intro y hy
    simp [EnergyIndex.State.initial] at hy
  · intro ms p inputs x hx
    refine health_run_bounds ms p inputs _ ?_ x hx
    intro _
    rfl
  · intro a b c d
    exact ⟨sns_bounds (stressNormalizeLFHF_bounds a) (stressNormalizeSDNN_bounds b)
        (stressNormalizeRMSSD_bounds c),
      psns_bounds (stressNormalizeLFHF_bounds a) (stressNormalizeSDNN_bounds b)
        (stressNormalizeRMSSD_bounds c) (stressNormalizeTP_bounds d)⟩

theorem composite_indices_in_range_witness :
    0 ≤ (0 : ℚ) ∧ (0 : ℚ) ≤ 100 :=
  composite_indices_in_range.1 1000 100 [(1000, 0, 0)] 0 (by
    norm_num [StressIndex.run, StressIndex.handleRrInterval,
      StressIndex.calculate, StressIndex.getLastStressValue,
      StressIndex.State.initial, addSample, recentSamples, validateRrInterval])

/-- C1: the per-peak QT processing of `processForQT` publishes a QT event
only with `230 ≤ QT ≤ 660` and Q < T-peak < T-end (as buffer indices); and
whenever the detected (Q, T-peak, T-end) triple violates the range bound or
the ordering, it publishes nothing at all for that R-peak — no QT event and
no Q/T-peak/T-end fiducial events. -/
theorem qt_emission_guard (fs : ℚ) (times samples : List ℚ) (offset : ℕ)
    (processed : List ℕ) (r : ℕ) (qPoint tPeak tEnd : Option ℕ) :
    (∀ e ∈ (Ecg.processPeakForQT fs times samples offset processed r
        qPoint tPeak tEnd).qts,
        (230 ≤ e.qtInterval ∧ e.qtInterval ≤ 660) ∧
          e.qPointIndex < e.tEndIndex) ∧
    (∀ eq ∈ (Ecg.processPeakForQT fs times samples offset processed r
        qPoint tPeak tEnd).qPoints,
      ∀ ep ∈ (Ecg.processPeakForQT fs times samples offset processed r
        qPoint tPeak tEnd).tPeaks,
      ∀ ee ∈ (Ecg.processPeakForQT fs times samples offset processed r
        qPoint tPeak tEnd).tEnds,
        eq.index < ep.index ∧ ep.index < ee.index) ∧
    (∀ q tp te, qPoint = some q → tPeak = some tp → tEnd = some te →
        ¬ (230 ≤ (((te : ℚ) - (q : ℚ)) / fs) * 1000 ∧
            (((te : ℚ) - (q : ℚ)) / fs) * 1000 ≤ 660 ∧ tp < te ∧ q < tp) →
        (Ecg.processPeakForQT fs times samples offset processed r
            qPoint tPeak tEnd).qts = [] ∧
        (Ecg.processPeakForQT fs times samples offset processed r
            qPoint tPeak tEnd).qPoints = [] ∧
        (Ecg.processPeakForQT fs times samples offset processed r
            qPoint tPeak tEnd).tPeaks = [] ∧
        (Ecg.processPeakForQT fs times samples offset processed r
            qPoint tPeak tEnd).tEnds = []) := by
  unfold Ecg.processPeakForQT
  by_cases hmem : offset + r ∈ processed
  · simp [hmem]
  · rcases qPoint with _ | q <;> rcases tPeak with _ | tp <;>
      rcases tEnd with _ | te <;> simp [hmem]
    split_ifs with hg
    · obtain ⟨hlo, hhi, hte, hq⟩ := hg
      refine ⟨?_, ?_, ?_⟩
      · intro e he
        simp only [List.mem_singleton] at he
        subst he
        exact ⟨⟨hlo, hhi⟩, by simp; omega⟩
      · intro eq heq ep hep ee hee
        simp only [List.mem_singleton] at heq hep hee
        subst heq; subst hep; subst hee
        constructor <;> simp <;> omega
      · intro hng
        exact absurd (hng hlo hhi hte) (by omega)
    · simp

theorem qt_emission_guard_witness :
    (230 ≤ (((70 : ℚ) - 10) / 130) * 1000 ∧
        (((70 : ℚ) - 10) / 130) * 1000 ≤ 660) ∧
      (0 + 10 : ℕ) < 0 + 70 :=
  (qt_emission_guard 130 [] [] 0 [] 30 (some 10) (some 50) (some 70)).1
    ⟨(((70 : ℚ) - 10) / 130) * 1000, 0 + 10, 0 + 70, 0, 0, 0 + 30, 0⟩
    (by norm_num [Ecg.processPeakForQT])

theorem insufficient_data_behaviour_witness :
    StressIndex.calculate 100 0 0 StressIndex.State.initial =
      (StressIndex.getLastStressValue [] [], StressIndex.State.initial) :=
  insufficient_data_behaviour.1 100 0 0 StressIndex.State.initial
    (by norm_num [recentSamples, StressIndex.State.initial])

theorem detectStep_mem (s : List ℚ) (thr : ℚ) (minD : ℤ) (acc : List ℕ)
    (i : ℕ) : ∀ p ∈ Ecg.detectStep s thr minD acc i, p ∈ acc ∨ p = i := by
  intro p hp
  unfold Ecg.detectStep at hp
  split_ifs at hp
  all_goals try exact Or.inl hp
  rcases acc with _ | ⟨last, rest⟩
  · simp at hp
    exact Or.inr hp
  · dsimp only at hp
    split_ifs at hp
    · simp only [List.mem_cons] at hp
      rcases hp with rfl | hp
      · exact Or.inr rfl
      · exact Or.inl (List.mem_cons.mpr hp)
    · simp only [List.mem_cons] at hp
      rcases hp with rfl | hp
      · exact Or.inr rfl
      · exact Or.inl (List.mem_cons_of_mem _ hp)
    · exact Or.inl hp

theorem detectStep_chain (s : List ℚ) (thr : ℚ) (minD : ℤ) (acc : List ℕ)
    (i : ℕ)
    (hch : List.Chain' (fun a b : ℕ => (b : ℤ) + minD ≤ (a : ℤ)) acc)
    (hlt : ∀ p ∈ acc, p < i) :
    List.Chain' (fun a b : ℕ => (b : ℤ) + minD ≤ (a : ℤ))
      (Ecg.detectStep s thr minD acc i) := by
  unfold Ecg.detectStep
  split_ifs with h1 h2
  all_goals try exact hch
  rcases acc with _ | ⟨last, rest⟩
  · simp
  · dsimp only
    split_ifs with hd hrep
    · rw [List.chain'_cons]
      refine ⟨by omega, hch⟩
    · rcases rest with _ | ⟨r2, rrest⟩
      · simp
      · have h2i : (r2 : ℤ) + minD ≤ (last : ℤ) := (List.chain'_cons.mp hch).1
        have hlast : last < i := hlt last (by simp)
        rw [List.chain'_cons]
        exact ⟨by omega, (List.chain'_cons.mp hch).2⟩
    · exact hch

theorem detect_foldl_chain (s : List ℚ) (thr : ℚ) (minD : ℤ) :
    ∀ (idxs : List ℕ) (acc : List ℕ),
      List.Pairwise (· < ·) idxs →
      List.Chain' (fun a b : ℕ => (b : ℤ) + minD ≤ (a : ℤ)) acc →
      (∀ p ∈ acc, ∀ i ∈ idxs, p < i) →
      List.Chain' (fun a b : ℕ => (b : ℤ) + minD ≤ (a : ℤ))
        (idxs.foldl (Ecg.detectStep s thr minD) acc) := by
  intro idxs
  induction idxs with
  | nil => intro acc _ hch _; simpa using hch
  | cons i tl ih =>
    intro acc hpw hch hlt
    rw [List.foldl_cons]
    have hpw' := List.pairwise_cons.mp hpw
    apply ih _ hpw'.2
    · exact detectStep_chain s thr minD acc i hch
        (fun p hp => hlt p hp i (by simp))
    · intro p hp j hj
      rcases detectStep_mem s thr minD acc i p hp with hpa | rfl
      · exact hlt p hpa j (by simp [hj])
      · exact hpw'.1 j hj

/-- C9 (amended, positive part): successive R-peak candidates produced by
one `detectRPeaks` pass are always at least `⌊0.4 · fs⌋` samples apart — the
refractory rule (including its replace-higher-peak branch) holds before
refinement. -/
theorem detect_refractory_chain (fs : ℚ) (samples : List ℚ) :
    List.Chain' (fun a b : ℕ => (a : ℤ) + ⌊(400 / 1000 : ℚ) * fs⌋ ≤ (b : ℤ))
      (Ecg.detectRPeaks fs samples) := by
  unfold Ecg.detectRPeaks
  rw [List.chain'_reverse]
  exact detect_foldl_chain _ _ _ _ [] (List.pairwise_lt_range' _ _)
    (by simp) (by simp)

set_option maxRecDepth 200000 in
theorem exS_sort :
    Ecg.exS.insertionSort (· ≤ ·) =
      List.replicate 196 0 ++ [50, 50, 100, 100] := by
  decide

theorem exS_thr : Ecg.calculateRPeakThreshold Ecg.exS = Rat.divInt 75 2 := by
  simp only [Ecg.calculateRPeakThreshold]
  rw [exS_sort]
  rw [show ((Ecg.exS.length : ℚ) * (9/10)) = ((180 : ℤ) : ℚ) from by
    norm_num [Ecg.exS]]
  rw [Int.floor_intCast]
  rw [show ((180 : ℤ).toNat) = 180 from rfl]
  have hgd : (List.replicate 196 (0:ℚ) ++ [50, 50, 100, 100]).getD 180 0 = 0 := by
    decide
  rw [hgd]
  have hfil : Ecg.exS.filter (fun v => decide ((0:ℚ) < v)) = [50, 100, 50, 100] := by
    decide
  rw [hfil]
  rw [Rat.divInt_eq_div]
  norm_num

set_option maxRecDepth 400000 in
theorem detect_stage_zeros1 :
    (List.range' 10 90).foldl
      (Ecg.detectStep Ecg.exS (Rat.divInt 75 2) 52) [] = [] := by
  decide

set_option maxRecDepth 400000 in
theorem detect_stage_peak1 :
    Ecg.detectStep Ecg.exS (Rat.divInt 75 2) 52 [] 100 = [100] := by
  have hlm : Ecg.localMaxAt Ecg.exS 100 = true := by decide
  have hd99 : Ecg.calculateDerivative Ecg.exS (100 - 1) = 50 := by
    unfold Ecg.calculateDerivative
    rw [if_neg (by decide)]
    have h1 : Ecg.exS.getD (100 - 1) 0 = 50 := by decide
    have h2 : Ecg.exS.getD (100 - 1 - 1) 0 = 0 := by decide
    rw [h1, h2]
    norm_num
  have hs100 : Ecg.exS.getD 100 0 = 100 := by decide
  have hc : Rat.divInt 75 2 < Ecg.exS.getD 100 0 ∧
      ((0 < 100 ∧ Rat.divInt 75 2 / 15 < Ecg.calculateDerivative Ecg.exS (100 - 1)) ∨
        (100 + 1 < Ecg.exS.length ∧
          Ecg.calculateDerivative Ecg.exS 100 < -(Rat.divInt 75 2 / 15))) := by
    refine ⟨?_, Or.inl ⟨by norm_num, ?_⟩⟩
    · rw [hs100, Rat.divInt_eq_div]
      norm_num
    · rw [hd99, Rat.divInt_eq_div]
      norm_num
  unfold Ecg.detectStep
  rw [if_neg (by simp [hlm]), if_pos hc]

set_option maxRecDepth 400000 in
theorem detect_stage_zeros2 :
    (List.range' 101 51).foldl
      (Ecg.detectStep Ecg.exS (Rat.divInt 75 2) 52) [100] = [100] := by
  decide

set_option maxRecDepth 400000 in
theorem detect_stage_peak2 :
    Ecg.detectStep Ecg.exS (Rat.divInt 75 2) 52 [100] 152 = [152, 100] := by
  have hlm : Ecg.localMaxAt Ecg.exS 152 = true := by decide
  have hd151 : Ecg.calculateDerivative Ecg.exS (152 - 1) = 50 := by
    unfold Ecg.calculateDerivative
    rw [if_neg (by decide)]
    have h1 : Ecg.exS.getD (152 - 1) 0 = 50 := by decide
    have h2 : Ecg.exS.getD (152 - 1 - 1) 0 = 0 := by decide
    rw [h1, h2]
    norm_num
  have hs152 : Ecg.exS.getD 152 0 = 100 := by decide
  have hc : Rat.divInt 75 2 < Ecg.exS.getD 152 0 ∧
      ((0 < 152 ∧ Rat.divInt 75 2 / 15 < Ecg.calculateDerivative Ecg.exS (152 - 1)) ∨
        (152 + 1 < Ecg.exS.length ∧
          Ecg.calculateDerivative Ecg.exS 152 < -(Rat.divInt 75 2 / 15))) := by
    refine ⟨?_, Or.inl ⟨by norm_num, ?_⟩⟩
    · rw [hs152, Rat.divInt_eq_div]
      norm_num
    · rw [hd151, Rat.divInt_eq_div]
      norm_num
  unfold Ecg.detectStep
  rw [if_neg (by simp [hlm]), if_pos hc]
  dsimp only
  rw [if_pos (by decide : (52 : ℤ) ≤ (152 : ℕ) - (100 : ℕ))]

set_option maxRecDepth 400000 in
theorem detect_stage_zeros3 :
    (List.range' 153 37).foldl
      (Ecg.detectStep Ecg.exS (Rat.divInt 75 2) 52) [152, 100] = [152, 100] := by
  decide

set_option maxRecDepth 400000 in
theorem detect_eval : Ecg.detectRPeaks 130 Ecg.exS = [100, 152] := by
  unfold Ecg.detectRPeaks
  rw [show Ecg.exS.length - 20 = 180 from by decide]
  rw [show ((400 / 1000 : ℚ) * 130) = ((52 : ℤ) : ℚ) from by norm_num,
    Int.floor_intCast]
  rw [exS_thr]
  rw [show List.range' 10 180 =
      ((((List.range' 10 90 ++ [100]) ++ List.range' 101 51) ++ [152]) ++
        List.range' 153 37) from by decide]
  rw [List.foldl_append, List.foldl_append, List.foldl_append,
    List.foldl_append]
  rw [detect_stage_zeros1]
  rw [show ([100] : List ℕ).foldl (Ecg.detectStep Ecg.exS (Rat.divInt 75 2) 52) [] =
      Ecg.detectStep Ecg.exS (Rat.divInt 75 2) 52 [] 100 from rfl]
  rw [detect_stage_peak1, detect_stage_zeros2]
  rw [show ([152] : List ℕ).foldl (Ecg.detectStep Ecg.exS (Rat.divInt 75 2) 52) [100] =
      Ecg.detectStep Ecg.exS (Rat.divInt 75 2) 52 [100] 152 from rfl]
  rw [detect_stage_peak2, detect_stage_zeros3]
  rfl

set_option maxRecDepth 400000 in
theorem refine_eval : Ecg.refineRPeaks 130 [100, 152] Ecg.exO = [103, 149] := by
  unfold Ecg.refineRPeaks
  simp only [show ((2 / 100 : ℚ) * 130) = (13/5 : ℚ) from by norm_num]
  simp only [show (⌈(13/5 : ℚ)⌉ : ℤ) = 3 from by norm_num [Int.ceil_eq_iff]]
  decide

/-- C9 counterexample: on a 200-sample window (`processForQT`'s minimum) at
fs = 130 Hz, `detectRPeaks` accepts peaks at indices 100 and 152 — exactly
the 52-sample (= 400 ms) refractory distance apart — but the ±20 ms
refinement against the unfiltered signal moves them to 103 and 149, so the
two published R-peak events are only 46 samples apart and their timestamps
(uniform 1/fs spacing) differ by 46/130 s ≈ 354 ms < 400 ms. -/
theorem refined_peaks_breach_refractory :
    Ecg.detectRPeaks 130 Ecg.exS = [100, 152] ∧
    Ecg.refineRPeaks 130 (Ecg.detectRPeaks 130 Ecg.exS) Ecg.exO = [103, 149] ∧
    (152 - 100 : ℤ) = ⌊(400 / 1000 : ℚ) * 130⌋ ∧
    Ecg.ecgTimeAt 130 149 - Ecg.ecgTimeAt 130 103 < 400 / 1000 := by
  refine ⟨detect_eval, ?_, ?_, ?_⟩
  · rw [detect_eval]
    exact refine_eval
  · rw [show ((400 / 1000 : ℚ) * 130) = ((52 : ℤ) : ℚ) from by norm_num,
      Int.floor_intCast]
    norm_num
  · norm_num [Ecg.ecgTimeAt]

end Cardio
